import Mathlib

/-!
Shallow embedding of the call-future bridge of `ic-cdk` (`src/ic-cdk/src/api/call.rs`).

The host (IC system API `ic0`) is modelled by:
* `HostEnv` — the message environment visible inside a callback invocation
  (`ic0.msg_reject_code`, `ic0.msg_reject_msg_*`, `ic0.msg_arg_data_*`);
* `HostOp` — the trace of host primitives invoked by the dispatch routine
  (`ic0.call_new`, `ic0.call_data_append`, `ic0.call_cycles_add`,
  `ic0.call_cycles_add128`, `ic0.call_on_cleanup`, `ic0.call_perform`);
* `Event` — the observable actions of the completion/cleanup callbacks
  (waking a stored waker, storing to the global `crate::futures::CLEANUP` flag).

The interior-mutable shared state cell (`WasmCell<CallFutureState>`) becomes
explicit state passing of a `CallFutureState` value; bytes (`Vec<u8>`) become
`List Nat`; the opaque `Waker` becomes an identifier `Nat`.
-/

namespace CdkCall

/-- Byte strings (`Vec<u8>` / `&[u8]`), each byte a natural number. -/
abbrev Bytes := List Nat

/-- Rejection code from calling another canister (`enum RejectionCode` in the
source). Note the `Unknown` variant of the source carries no payload. -/
inductive RejectionCode where
  | NoError
  | SysFatal
  | SysTransient
  | DestinationInvalid
  | CanisterReject
  | CanisterError
  | Unknown
deriving DecidableEq, Repr

/-- `impl From<i32> for RejectionCode`: the match on the raw host code. -/
def RejectionCode.fromInt (code : Int) : RejectionCode :=
  if code = 0 then .NoError
  else if code = 1 then .SysFatal
  else if code = 2 then .SysTransient
  else if code = 3 then .DestinationInvalid
  else if code = 4 then .CanisterReject
  else if code = 5 then .CanisterError
  else .Unknown

/-- `impl From<u32> for RejectionCode`: `RejectionCode::from(code as i32)`,
where the cast reinterprets the 32-bit word. -/
def RejectionCode.fromU32 (code : Nat) : RejectionCode :=
  RejectionCode.fromInt (if code < 2 ^ 31 then (code : Int) else (code : Int) - 2 ^ 32)

/-- `CallResult<Vec<u8>> = Result<Vec<u8>, (RejectionCode, String)>`. -/
abbrev CallResult := Except (RejectionCode × String) Bytes

instance : DecidableEq CallResult := fun
  | .ok a, .ok b => decidable_of_iff (a = b) (by simp)
  | .ok _, .error _ => isFalse (by simp)
  | .error _, .ok _ => isFalse (by simp)
  | .error a, .error b => decidable_of_iff (a = b) (by simp)

/-- `struct CallFutureState` : the contents of the shared state cell:
the recorded outcome, if any, and the stored waker, if any. -/
structure CallFutureState where
  result : Option CallResult
  waker : Option Nat
deriving DecidableEq, Repr

/-- `Poll` from the Rust future contract. -/
inductive PollRes where
  | Ready (r : CallResult)
  | Pending
deriving DecidableEq, Repr

/-- `CallFuture::poll`: take the recorded result out if present, otherwise
store the supplied waker (replacing any previous one) and stay pending. -/
def poll (s : CallFutureState) (w : Nat) : PollRes × CallFutureState :=
  match s.result with
  | some r => (.Ready r, { s with result := none })
  | none => (.Pending, { s with waker := some w })

/-- The message environment the host exposes to a callback invocation:
`ic0.msg_reject_code`, the rejection message, and the argument/reply bytes. -/
structure HostEnv where
  rejectCode : Int
  rejectMsg : String
  argData : Bytes
deriving DecidableEq, Repr

/-- Observable actions of the callback entry points. -/
inductive Event where
  | wake (w : Nat)
  | setCleanup (b : Bool)
deriving DecidableEq, Repr

/-- `unsafe fn callback(state_ptr)`: reconstruct the cell from the token,
record the outcome from the host environment, then take the waker out and
wake it when present. -/
def callback (env : HostEnv) (s : CallFutureState) :
    CallFutureState × List Event :=
  let res : CallResult :=
    match RejectionCode.fromInt env.rejectCode with
    | .NoError => .ok env.argData
    | n => .error (n, env.rejectMsg)
  let s1 : CallFutureState := { s with result := some res }
  match s1.waker with
  | some w => ({ s1 with waker := none }, [.wake w])
  | none => ({ s1 with waker := none }, [])

/-- `unsafe fn cleanup(state_ptr)`: identical outcome recording, but waking
the waker is bracketed by stores to the global `crate::futures::CLEANUP`
flag (`true` immediately before, `false` immediately after). -/
def cleanup (env : HostEnv) (s : CallFutureState) :
    CallFutureState × List Event :=
  let res : CallResult :=
    match RejectionCode.fromInt env.rejectCode with
    | .NoError => .ok env.argData
    | n => .error (n, env.rejectMsg)
  let s1 : CallFutureState := { s with result := some res }
  match s1.waker with
  | some w =>
      ({ s1 with waker := none },
        [.setCleanup true, .wake w, .setCleanup false])
  | none => ({ s1 with waker := none }, [])

/-- Function addresses registered with the host: the completion entry point
(`callback`) and the cleanup entry point (`cleanup`). -/
inductive CallbackAddr where
  | callbackAddr
  | cleanupAddr
deriving DecidableEq, Repr

/-- Host primitives invoked by the dispatch routine, in order. -/
inductive HostOp where
  | callNew (callee : Bytes) (method : String)
      (replyFn : CallbackAddr) (replyEnv : Nat)
      (rejectFn : CallbackAddr) (rejectEnv : Nat)
  | dataAppend (args : Bytes)
  | cyclesAdd (amount : Nat)
  | cyclesAdd128 (high low : Nat)
  | onCleanup (fn : CallbackAddr) (env : Nat)
  | perform
deriving DecidableEq, Repr

/-- Whether a host operation attaches cycles to the outgoing call. -/
def HostOp.isCyclesOp : HostOp → Bool
  | .cyclesAdd _ => true
  | .cyclesAdd128 _ _ => true
  | _ => false

/-- The result of running `call_raw_internal`: the trace of host primitives
invoked, the number of additional cell shares consumed via `into_raw`, the
raw-pointer tokens passed as user data for the three callback slots, and the
state of the shared cell when the future is returned. Tokens are numbered in
order of creation, starting at `0`. -/
structure DispatchResult where
  trace : List HostOp
  tokensCreated : Nat
  replyEnv : Nat
  rejectEnv : Nat
  cleanupEnv : Nat
  cell : CallFutureState
deriving DecidableEq, Repr

/-- The fixed diagnostic message of the synchronous-failure path. -/
def couldntSendMessage : String := "Couldn\x27t send message"

/-- `fn call_raw_internal(id, method, args_raw, payment_func)`: create the
cell, produce `state_ptr` by `WasmCell::into_raw(state.clone())` (a single
additional share, token `0`), register the call passing `callback` with that
token for both the reply and reject slots, append the payload, run the
payment closure (its host operations are `paymentOps`), register `cleanup`
with the same token, and perform the call. `errCode` is the value returned
by `ic0.call_perform`; when it is non-zero the routine itself records
`Err((RejectionCode::from(err_code), "Couldn\x27t send message"))`. -/
def call_raw_internal (callee : Bytes) (method : String) (argsRaw : Bytes)
    (paymentOps : List HostOp) (errCode : Int) : DispatchResult :=
  let statePtr : Nat := 0
  let cell0 : CallFutureState := { result := none, waker := none }
  let trace : List HostOp :=
    HostOp.callNew callee method .callbackAddr statePtr .callbackAddr statePtr
      :: HostOp.dataAppend argsRaw
      :: (paymentOps ++ [HostOp.onCleanup .cleanupAddr statePtr, HostOp.perform])
  let cell : CallFutureState :=
    if errCode ≠ 0 then
      { cell0 with
        result := some (.error (RejectionCode.fromInt errCode, couldntSendMessage)) }
    else cell0
  { trace := trace
    tokensCreated := 1
    replyEnv := statePtr
    rejectEnv := statePtr
    cleanupEnv := statePtr
    cell := cell }

/-- `fn call_raw(id, method, args_raw, payment)` with a 64-bit payment: the
payment closure calls `ic0.call_cycles_add(payment)` only when
`payment > 0`. -/
def call_raw (callee : Bytes) (method : String) (argsRaw : Bytes)
    (payment : Nat) (errCode : Int) : DispatchResult :=
  call_raw_internal callee method argsRaw
    (if payment > 0 then [HostOp.cyclesAdd payment] else []) errCode

/-- `fn call_raw128(id, method, args_raw, payment)` with a 128-bit payment:
when `payment > 0` the closure splits it into
`high = (payment >> 64) as u64` and `low = (payment & u64::MAX) as u64` and
calls `ic0.call_cycles_add128(high, low)`. -/
def call_raw128 (callee : Bytes) (method : String) (argsRaw : Bytes)
    (payment : Nat) (errCode : Int) : DispatchResult :=
  call_raw_internal callee method argsRaw
    (if payment > 0 then
      [HostOp.cyclesAdd128 (payment >>> 64) (payment &&& (2 ^ 64 - 1))]
    else []) errCode

/-- Modelled from the spec: the Candid wire codec is an external dependency
(only its `encode_args`/`decode_args` entry points are called from the
source); the spec treats it as "a self-describing typed serialization
(Candid) for encoding tuples of typed arguments to bytes and decoding bytes
back to typed tuples". A typed argument here is a natural number or a
boolean; a tuple is a list of them (empty, single-value and multi-value
tuples included). -/
inductive CandidValue where
  | natV (n : Nat)
  | boolV (b : Bool)
deriving DecidableEq, Repr

/-- Modelled from the spec: self-describing encoding of a single typed
value, a tag byte followed by the payload. -/
def encodeVal : CandidValue → Bytes
  | .natV n => [0, n]
  | .boolV b => [1, if b then 1 else 0]

/-- Modelled from the spec: `encode_args`, encoding a tuple of typed
arguments to bytes. -/
def encode_args (vs : List CandidValue) : Bytes :=
  (vs.map encodeVal).flatten

/-- Modelled from the spec: `decode_args`, decoding bytes back to a tuple of
typed arguments; fails on malformed input. -/
def decode_args : Bytes → Option (List CandidValue)
  | [] => some []
  | 0 :: n :: rest => (decode_args rest).map (fun vs => .natV n :: vs)
  | 1 :: 0 :: rest => (decode_args rest).map (fun vs => .boolV false :: vs)
  | 1 :: 1 :: rest => (decode_args rest).map (fun vs => .boolV true :: vs)
  | _ => none

/-- The dispatch performed by the typed wrapper `fn call(id, method, args)`:
it encodes the arguments and invokes `call_raw` with payment `0`. -/
def call_dispatch (callee : Bytes) (method : String) (args : List CandidValue)
    (errCode : Int) : DispatchResult :=
  call_raw callee method (encode_args args) 0 errCode

/-- The round-trip scenario of the typed wrapper `fn call`: dispatch the
encoded arguments (transmission accepted, `err_code = 0`), let the host
invoke the completion callback with a `NoError` code and the request bytes
echoed back as the reply, poll the future, and decode the reply bytes. The
source wrapper traps on a decode failure, modelled by `none`. -/
def call_echo (callee : Bytes) (method : String) (args : List CandidValue)
    (w : Nat) : Option (List CandidValue) :=
  let d := call_dispatch callee method args 0
  let env : HostEnv :=
    { rejectCode := 0, rejectMsg := "", argData := encode_args args }
  let s1 := (callback env d.cell).1
  match (poll s1 w).1 with
  | .Ready (.ok bytes) => decode_args bytes
  | _ => none

/-- Round trip of the modelled codec: decoding an encoded tuple of typed
arguments reproduces the tuple. -/
theorem decode_encode_args (vs : List CandidValue) :
    decode_args (encode_args vs) = some vs := by
  induction vs with
  | nil => rfl
  | cons v vs ih =>
      cases v with
      | natV n =>
          simp only [encode_args, List.map_cons, List.flatten_cons, encodeVal] at *
          simp [decode_args, ih]
      | boolV b =>
          cases b <;>
            simp only [encode_args, List.map_cons, List.flatten_cons, encodeVal] at * <;>
            simp [decode_args, ih]

/-- Claim C1, amended: recording an outcome is an unconditional overwrite.
The value recorded by the completion or cleanup callback is independent of
any previously stored outcome (so a second record silently replaces the
first), and after either callback an outcome is always present. -/
theorem c1_overwrite (env : HostEnv) (s t : CallFutureState) :
    ((callback env s).1).result = ((callback env t).1).result ∧
    ((cleanup env s).1).result = ((cleanup env t).1).result ∧
    (((callback env s).1).result).isSome = true := by
  unfold callback cleanup
  cases s.waker <;> cases t.waker <;> simp

/-- Claim C1, counterexample: recording a second outcome for the same cell
silently overwrites the first. After the completion callback records
`Ok [1]`, a second invocation recording `Ok [2]` leaves `Ok [2]` in the
cell: the first value is not preserved and nothing is rejected. -/
theorem c1_counterexample :
    ((callback { rejectCode := 0, rejectMsg := "", argData := [2] }
        (callback { rejectCode := 0, rejectMsg := "", argData := [1] }
          { result := none, waker := none }).1).1).result
      = some (.ok [2]) ∧
    (some (Except.ok [2] : CallResult) ≠ some (.ok [1])) := by
  exact ⟨rfl, by decide⟩

/-- Claim C2: when `ic0.call_perform` returns a non-zero error code, the
dispatch routine itself records
`Err((RejectionCode::from(err_code), "Couldn\x27t send message"))` in the
cell, and the returned future is ready with exactly that error on its first
poll. -/
theorem c2_sync_failure (callee : Bytes) (method : String) (argsRaw : Bytes)
    (paymentOps : List HostOp) (errCode : Int) (w : Nat) (h : errCode ≠ 0) :
    (call_raw_internal callee method argsRaw paymentOps errCode).cell.result
      = some (.error (RejectionCode.fromInt errCode, couldntSendMessage)) ∧
    (poll (call_raw_internal callee method argsRaw paymentOps errCode).cell w).1
      = .Ready (.error (RejectionCode.fromInt errCode, couldntSendMessage)) := by
  unfold call_raw_internal poll
  simp [h]

/-- Witness for C2 at the concrete error code `2`. -/
theorem c2_sync_failure_witness :
    (call_raw_internal [] "m" [] [] 2).cell.result
      = some (.error (RejectionCode.fromInt 2, couldntSendMessage)) ∧
    (poll (call_raw_internal [] "m" [] [] 2).cell 0).1
      = .Ready (.error (RejectionCode.fromInt 2, couldntSendMessage)) :=
  c2_sync_failure [] "m" [] [] 2 0 (by decide)

/-- Claim C3: the completion callback records `Ok(arg_data_raw())` when the
host reports `NoError`, and `Err((code, reject_message()))` otherwise; it
always takes the stored waker out, and wakes it exactly when one was
stored. -/
theorem c3_completion (env : HostEnv) (s : CallFutureState) :
    callback env s =
      ({ result := some
            (if RejectionCode.fromInt env.rejectCode = .NoError
              then .ok env.argData
              else .error (RejectionCode.fromInt env.rejectCode, env.rejectMsg)),
         waker := none },
        match s.waker with
        | some w => [Event.wake w]
        | none => []) := by
  unfold callback
  cases hc : RejectionCode.fromInt env.rejectCode <;> cases hw : s.waker <;>
    simp [hc, hw]

/-- Claim C4, amended: the dispatch routine produces a single raw-pointer
token from a single additional share of the cell and passes that same token
as the user data of the reply, reject and cleanup callback slots. -/
theorem c4_single_token (callee : Bytes) (method : String) (argsRaw : Bytes)
    (paymentOps : List HostOp) (errCode : Int) :
    (call_raw_internal callee method argsRaw paymentOps errCode).tokensCreated = 1 ∧
    (call_raw_internal callee method argsRaw paymentOps errCode).replyEnv
      = (call_raw_internal callee method argsRaw paymentOps errCode).cleanupEnv ∧
    (call_raw_internal callee method argsRaw paymentOps errCode).rejectEnv
      = (call_raw_internal callee method argsRaw paymentOps errCode).replyEnv := by
  unfold call_raw_internal
  simp

/-- Claim C4, counterexample: on a concrete dispatch the routine does not
create two tokens with distinct completion and cleanup user data — it
consumes one share and passes the same token to both slots. -/
theorem c4_counterexample :
    ¬ ((call_raw_internal [0] "m" [] [] 0).tokensCreated = 2 ∧
        (call_raw_internal [0] "m" [] [] 0).replyEnv
          ≠ (call_raw_internal [0] "m" [] [] 0).cleanupEnv) := by
  decide

/-- Claim C5: in the cleanup callback, when a waker is stored, waking it is
bracketed by setting the global cleanup flag to `true` immediately before
and `false` immediately after; when no waker is stored, no event happens at
all (the flag is never touched and nothing is woken). -/
theorem c5_cleanup_flag (env : HostEnv) (s : CallFutureState) :
    (cleanup env s).2 =
      (match s.waker with
        | some w => [Event.setCleanup true, Event.wake w, Event.setCleanup false]
        | none => []) ∧
    ((cleanup env s).1).waker = none := by
  unfold cleanup
  cases hw : s.waker <;> simp [hw]

/-- Claim C6: polling with no recorded outcome stores the supplied waker
(replacing any previous one) and stays pending; polling with a recorded
outcome returns it ready and takes it out of the cell, so a second poll
after a ready result is pending again. -/
theorem c6_poll (s : CallFutureState) (w w2 : Nat) :
    (s.result = none →
      poll s w = (.Pending, { s with waker := some w })) ∧
    (∀ r, s.result = some r →
      poll s w = (.Ready r, { s with result := none }) ∧
      (poll (poll s w).2 w2).1 = .Pending) := by
  unfold poll
  cases h : s.result <;> simp [h]

/-- Witness for C6 at concrete states. -/
theorem c6_poll_witness :
    poll { result := none, waker := none } 7
      = (.Pending, { result := none, waker := some 7 }) ∧
    poll { result := some (.ok [3]), waker := none } 7
      = (.Ready (.ok [3]), { result := none, waker := none }) ∧
    (poll (poll { result := some (.ok [3]), waker := none } 7).2 8).1
      = .Pending := by
  refine ⟨(c6_poll _ 7 8).1 rfl, ?_, ?_⟩
  · exact ((c6_poll _ 7 8).2 (.ok [3]) rfl).1
  · exact ((c6_poll _ 7 8).2 (.ok [3]) rfl).2

/-- Claim C7, amended: the conversion maps 0–5 to the six named codes and
every other value to the payload-free `Unknown` variant, which does not
carry the original code. -/
theorem c7_from_int :
    RejectionCode.fromInt 0 = .NoError ∧
    RejectionCode.fromInt 1 = .SysFatal ∧
    RejectionCode.fromInt 2 = .SysTransient ∧
    RejectionCode.fromInt 3 = .DestinationInvalid ∧
    RejectionCode.fromInt 4 = .CanisterReject ∧
    RejectionCode.fromInt 5 = .CanisterError ∧
    ∀ c : Int, (c < 0 ∨ 5 < c) → RejectionCode.fromInt c = .Unknown := by
  refine ⟨rfl, rfl, rfl, rfl, rfl, rfl, ?_⟩
  intro c h
  unfold RejectionCode.fromInt
  split_ifs <;> first | rfl | (exfalso; omega)

/-- Witness for the amended C7 at the concrete out-of-range code `99`. -/
theorem c7_from_int_witness : RejectionCode.fromInt 99 = .Unknown :=
  c7_from_int.2.2.2.2.2.2 99 (Or.inr (by norm_num))

/-- Claim C7, counterexample: the `Unknown` variant does not carry the
original code — the distinct host codes `6` and `7` both map to the same
value `Unknown`, so the original code is not recoverable from the result. -/
theorem c7_counterexample :
    RejectionCode.fromInt 6 = RejectionCode.fromInt 7 ∧
    (6 : Int) ≠ 7 ∧
    RejectionCode.fromInt 6 = .Unknown := by
  decide

/-- Claim C8: a positive 128-bit payment is split into
`high = payment >> 64` (which equals `payment / 2 ^ 64`) and
`low = payment &&& (2 ^ 64 - 1)` (which equals `payment % 2 ^ 64`), and the
host cycle-add primitive observes both halves before transmission. -/
theorem c8_payment128 (callee : Bytes) (method : String) (argsRaw : Bytes)
    (payment : Nat) (errCode : Int) (h : 0 < payment) :
    HostOp.cyclesAdd128 (payment / 2 ^ 64) (payment % 2 ^ 64)
      ∈ (call_raw128 callee method argsRaw payment errCode).trace := by
  unfold call_raw128 call_raw_internal
  have hs : payment >>> 64 = payment / 2 ^ 64 := Nat.shiftRight_eq_div_pow payment 64
  have hm : payment &&& (2 ^ 64 - 1) = payment % 2 ^ 64 :=
    Nat.and_pow_two_sub_one_eq_mod payment 64
  norm_num at hm
  simp [h, hs, hm]

/-- Witness for C8 at the payment `(1 <<< 64) + 42`: the high word is `1`
and the low word is `42`. -/
theorem c8_payment128_witness :
    HostOp.cyclesAdd128 ((2 ^ 64 + 42) / 2 ^ 64) ((2 ^ 64 + 42) % 2 ^ 64)
      ∈ (call_raw128 [] "m" [] (2 ^ 64 + 42) 0).trace ∧
    (2 ^ 64 + 42) / 2 ^ 64 = 1 ∧ (2 ^ 64 + 42) % 2 ^ 64 = 42 := by
  refine ⟨c8_payment128 [] "m" [] (2 ^ 64 + 42) 0 (by norm_num), ?_, ?_⟩
  · norm_num
  · norm_num

/-- Claim C9: when the host echoes the encoded request bytes back as a
successful reply, the typed call wrapper decodes them to exactly the
original typed arguments, for every tuple (empty, single- and multi-value
included). -/
theorem c9_round_trip (callee : Bytes) (method : String)
    (args : List CandidValue) (w : Nat) :
    call_echo callee method args w = some args := by
  unfold call_echo call_dispatch call_raw call_raw_internal callback poll
  simp [RejectionCode.fromInt, decode_encode_args]

/-- Claim C10: with payment `0` — in particular for every dispatch of the
typed `call` wrapper, which always passes `0` — the trace contains no
cycle-add host operation; for the raw variants the trace contains a
cycle-add operation exactly when the payment is strictly positive. -/
theorem c10_cycles_only_when_positive (callee : Bytes) (method : String)
    (argsRaw : Bytes) (args : List CandidValue) (p : Nat) (errCode : Int) :
    ((call_raw callee method argsRaw 0 errCode).trace.any HostOp.isCyclesOp
      = false) ∧
    ((call_raw128 callee method argsRaw 0 errCode).trace.any HostOp.isCyclesOp
      = false) ∧
    ((call_dispatch callee method args errCode).trace.any HostOp.isCyclesOp
      = false) ∧
    ((call_raw callee method argsRaw p errCode).trace.any HostOp.isCyclesOp
      = decide (0 < p)) ∧
    ((call_raw128 callee method argsRaw p errCode).trace.any HostOp.isCyclesOp
      = decide (0 < p)) := by
  unfold call_dispatch call_raw call_raw128 call_raw_internal
  rcases Nat.eq_zero_or_pos p with hp | hp <;>
    simp [hp, HostOp.isCyclesOp]

end CdkCall
